import Mathlib

/-!
Verification of the Groq/Gradio voice-assistant notebook
(`tutorials/groq-gradio/groq-gradio-tutorial.ipynb`).

The notebook defines three Python functions: `transcribe_audio`,
`generate_response` and `process_audio`. They are sequential glue around
two remote services (a speech-to-text endpoint and a chat-completion
endpoint) and two local library encoders (`sf.write` producing a WAV byte
stream, and `np.save` producing a numpy serialization). We embed these
functions shallowly:

* the external world (the two encoders and the two remote services) is a
  record `Env` of functions; the remote services return `Except Exc _`,
  where an `Except.error` models a raised Python exception carrying
  `str(e)`;
* each embedded function returns its Python return value inside
  `Except Exc _` (so that an uncaught exception would be visible as
  `Except.error`) together with the list of remote calls it issued, in
  order;
* Python's `audio is None` test becomes a match on `Option AudioClip`;
  Python's falsy test `not api_key` on an optional string becomes
  `api_key = none ∨ api_key = some ""`; the falsy test `not transcription`
  on a string becomes `transcription = ""`;
* `completion.choices[0]` on an empty choice list raises `IndexError`
  inside the `try` block, modelled by the `"list index out of range"`
  message.
-/

/-- A Python exception, reduced to the message `str(e)` used by the code. -/
abbrev Exc := String

/-- The Gradio audio value when present: a tuple of the sample rate
(`audio[0]`) and the numpy sample buffer (`audio[1]`). -/
structure AudioClip where
  rate : Nat
  data : List Int
deriving DecidableEq

/-- One role-tagged message of a chat-completion request. -/
structure ChatMessage where
  role : String
  content : String
deriving DecidableEq

/-- The request `client.audio.transcriptions.create(...)` sends: the
credential held by the client, the fixed model name, the uploaded file
name and bytes, and the response format. -/
structure TranscriptionRequest where
  apiKey : Option String
  model : String
  fileName : String
  fileBytes : List Nat
  responseFormat : String
deriving DecidableEq

/-- The request `client.chat.completions.create(...)` sends: the
credential held by the client, the fixed model name, and the ordered
message list. -/
structure ChatRequest where
  apiKey : Option String
  model : String
  messages : List ChatMessage
deriving DecidableEq

/-- A remote call issued by the code, recorded in order of issue. -/
inductive RemoteCall where
  | transcription (req : TranscriptionRequest)
  | chat (req : ChatRequest)
deriving DecidableEq

/-- The external world of the notebook: `sf.write(..., format='wav')` as a
byte-stream encoder, `np.save` as a second encoder, and the two remote
services, which either return a value or raise (`Except.error`). The chat
service returns the list of the completion choices' message contents. -/
structure Env where
  wavEncode : Nat → List Int → List Nat
  npSave : List Int → List Nat
  transcriptionService : TranscriptionRequest → Except Exc String
  chatService : ChatRequest → Except Exc (List String)

/-- The transcription request built by `transcribe_audio` for a present
clip: fixed model `distil-whisper-large-v3-en`, file `("audio.wav",
buffer)` where `buffer` holds the WAV encoding of the sample buffer at
the clip's rate, and `response_format="text"`. -/
def transcriptionRequestFor (env : Env) (api_key : Option String)
    (clip : AudioClip) : TranscriptionRequest :=
  { apiKey := api_key
    model := "distil-whisper-large-v3-en"
    fileName := "audio.wav"
    fileBytes := env.wavEncode clip.rate clip.data
    responseFormat := "text" }

/-- The chat request built by `generate_response`: fixed model
`llama-3.1-70b-versatile` and the two-message list of the fixed system
instruction followed by the user message holding the transcription. -/
def chatRequestFor (api_key : Option String) (transcription : String) :
    ChatRequest :=
  { apiKey := api_key
    model := "llama-3.1-70b-versatile"
    messages :=
      [ { role := "system", content := "You are a helpful assistant." },
        { role := "user", content := transcription } ] }

/-- Embedding of `transcribe_audio(audio, api_key)`: return `""` when the
audio is `None`; otherwise WAV-encode `audio[1]` at rate `audio[0]`, also
compute the (unused) `np.save` serialization `bytes_audio`, and call the
transcription service, catching any exception into the labeled error
string. -/
def transcribe_audio (env : Env) (audio : Option AudioClip)
    (api_key : Option String) : Except Exc String × List RemoteCall :=
  match audio with
  | none => (Except.ok "", [])
  | some clip =>
    let audio_data := clip.data
    let _buffer := env.wavEncode clip.rate audio_data
    let _bytes_audio := env.npSave audio_data
    let req := transcriptionRequestFor env api_key clip
    match env.transcriptionService req with
    | Except.ok completion => (Except.ok completion, [RemoteCall.transcription req])
    | Except.error e =>
        (Except.ok ("Error in transcription: " ++ e), [RemoteCall.transcription req])

/-- Embedding of `transcribe_audio` with the dead `np.save` block removed,
used to state that the block is dead code. -/
def transcribe_audio_without_npsave (env : Env) (audio : Option AudioClip)
    (api_key : Option String) : Except Exc String × List RemoteCall :=
  match audio with
  | none => (Except.ok "", [])
  | some clip =>
    let audio_data := clip.data
    let _buffer := env.wavEncode clip.rate audio_data
    let req := transcriptionRequestFor env api_key clip
    match env.transcriptionService req with
    | Except.ok completion => (Except.ok completion, [RemoteCall.transcription req])
    | Except.error e =>
        (Except.ok ("Error in transcription: " ++ e), [RemoteCall.transcription req])

/-- Embedding of `generate_response(transcription, api_key)`: return the
fixed placeholder when the transcription is falsy (empty); otherwise call
the chat service with the two-message request and return
`completion.choices[0].message.content`, catching any exception
(including the `IndexError` from an empty choice list) into the labeled
error string. -/
def generate_response (env : Env) (transcription : String)
    (api_key : Option String) : Except Exc String × List RemoteCall :=
  if transcription = "" then
    (Except.ok "No transcription available. Please try speaking again.", [])
  else
    let req := chatRequestFor api_key transcription
    match env.chatService req with
    | Except.ok choices =>
      match choices with
      | c :: _ => (Except.ok c, [RemoteCall.chat req])
      | [] =>
          (Except.ok ("Error in response generation: " ++ "list index out of range"),
           [RemoteCall.chat req])
    | Except.error e =>
        (Except.ok ("Error in response generation: " ++ e), [RemoteCall.chat req])

/-- Embedding of `process_audio(audio, api_key)`: short-circuit on a falsy
credential with the fixed guidance pair; otherwise run `transcribe_audio`,
feed its result to `generate_response`, and return both. An uncaught
exception in either callee would propagate (`Except.error`). -/
def process_audio (env : Env) (audio : Option AudioClip)
    (api_key : Option String) :
    Except Exc (String × String) × List RemoteCall :=
  if api_key = none ∨ api_key = some "" then
    (Except.ok ("Please enter your Groq API key.", "API key is required."), [])
  else
    match transcribe_audio env audio api_key with
    | (Except.ok transcription, calls₁) =>
      match generate_response env transcription api_key with
      | (Except.ok response, calls₂) =>
          (Except.ok (transcription, response), calls₁ ++ calls₂)
      | (Except.error e, calls₂) => (Except.error e, calls₁ ++ calls₂)
    | (Except.error e, calls₁) => (Except.error e, calls₁)

/-- A concrete external world where both services succeed, used to
instantiate universally quantified theorems at a checkable point. -/
def testEnv : Env :=
  { wavEncode := fun rate data => rate :: data.map Int.natAbs
    npSave := fun data => data.length :: data.map Int.natAbs
    transcriptionService := fun _ => Except.ok "hello"
    chatService := fun _ => Except.ok ["hi there"] }

/-- A concrete external world where both remote services raise. -/
def failEnv : Env :=
  { wavEncode := fun rate data => rate :: data.map Int.natAbs
    npSave := fun data => data.length :: data.map Int.natAbs
    transcriptionService := fun _ => Except.error "boom"
    chatService := fun _ => Except.error "down" }

/-- Helper: `transcribe_audio` always returns normally (never propagates
an exception). -/
theorem transcribe_audio_total (env : Env) (audio : Option AudioClip)
    (api_key : Option String) :
    ∃ t c, transcribe_audio env audio api_key = (Except.ok t, c) := by
  cases audio with
  | none => exact ⟨"", [], rfl⟩
  | some clip =>
    unfold transcribe_audio
    cases h : env.transcriptionService (transcriptionRequestFor env api_key clip) with
    | ok t =>
      exact ⟨t, [RemoteCall.transcription (transcriptionRequestFor env api_key clip)],
        by simp [h]⟩
    | error e =>
      exact ⟨"Error in transcription: " ++ e,
        [RemoteCall.transcription (transcriptionRequestFor env api_key clip)],
        by simp [h]⟩

/-- Helper: `generate_response` always returns normally (never propagates
an exception). -/
theorem generate_response_total (env : Env) (transcription : String)
    (api_key : Option String) :
    ∃ r c, generate_response env transcription api_key = (Except.ok r, c) := by
  unfold generate_response
  by_cases ht : transcription = ""
  · exact ⟨"No transcription available. Please try speaking again.", [], by simp [ht]⟩
  · cases h : env.chatService (chatRequestFor api_key transcription) with
    | ok choices =>
      cases choices with
      | nil =>
        exact ⟨"Error in response generation: " ++ "list index out of range",
          [RemoteCall.chat (chatRequestFor api_key transcription)], by simp [ht, h]⟩
      | cons c rest =>
        exact ⟨c, [RemoteCall.chat (chatRequestFor api_key transcription)],
          by simp [ht, h]⟩
    | error e =>
      exact ⟨"Error in response generation: " ++ e,
        [RemoteCall.chat (chatRequestFor api_key transcription)], by simp [ht, h]⟩

/-- Claim C1: with an absent or empty credential, `process_audio` returns
exactly the fixed guidance pair and issues no remote call (neither client
is invoked). -/
theorem process_audio_missing_key (env : Env) (audio : Option AudioClip)
    (api_key : Option String) (h : api_key = none ∨ api_key = some "") :
    process_audio env audio api_key =
      (Except.ok ("Please enter your Groq API key.", "API key is required."), []) := by
  unfold process_audio
  rw [if_pos h]

/-- Witness for C1 at the concrete input `api_key = some ""`. -/
theorem process_audio_missing_key_witness :
    process_audio testEnv none (some "") =
      (Except.ok ("Please enter your Groq API key.", "API key is required."), []) :=
  process_audio_missing_key testEnv none (some "") (Or.inr rfl)

/-- Claim C2: with a non-empty credential, `process_audio` is exactly the
sequential composition of the two clients: it returns the pair of the
transcription and the response generated from that transcription, and its
remote-call trace is the transcription stage's calls followed by the
completion stage's calls. -/
theorem process_audio_composes (env : Env) (audio : Option AudioClip)
    (k : String) (h : k ≠ "") :
    ∃ t r c₁ c₂,
      transcribe_audio env audio (some k) = (Except.ok t, c₁) ∧
      generate_response env t (some k) = (Except.ok r, c₂) ∧
      process_audio env audio (some k) = (Except.ok (t, r), c₁ ++ c₂) := by
  obtain ⟨t, c₁, ht⟩ := transcribe_audio_total env audio (some k)
  obtain ⟨r, c₂, hr⟩ := generate_response_total env t (some k)
  refine ⟨t, r, c₁, c₂, ht, hr, ?_⟩
  unfold process_audio
  rw [if_neg (by simp [h])]
  simp [ht, hr]

/-- Witness for C2 at a concrete clip and credential. -/
theorem process_audio_composes_witness :
    ∃ t r c₁ c₂,
      transcribe_audio testEnv (some ⟨16000, [1, -2]⟩) (some "gsk") =
        (Except.ok t, c₁) ∧
      generate_response testEnv t (some "gsk") = (Except.ok r, c₂) ∧
      process_audio testEnv (some ⟨16000, [1, -2]⟩) (some "gsk") =
        (Except.ok (t, r), c₁ ++ c₂) :=
  process_audio_composes testEnv (some ⟨16000, [1, -2]⟩) "gsk" (by decide)

/-- Claim C3: on a non-empty transcription, `generate_response` sends
exactly two messages in order — the fixed system message and a user
message holding the transcription verbatim — and returns the first
completion choice's text unchanged. -/
theorem generate_response_two_messages (env : Env) (t : String)
    (k : Option String) (c : String) (rest : List String) (ht : t ≠ "")
    (hsvc : env.chatService (chatRequestFor k t) = Except.ok (c :: rest)) :
    (chatRequestFor k t).messages =
      [ { role := "system", content := "You are a helpful assistant." },
        { role := "user", content := t } ] ∧
    generate_response env t k =
      (Except.ok c, [RemoteCall.chat (chatRequestFor k t)]) := by
  refine ⟨rfl, ?_⟩
  unfold generate_response
  rw [if_neg ht]
  simp [hsvc]

/-- Witness for C3 with a service returning one choice. -/
theorem generate_response_two_messages_witness :
    (chatRequestFor (some "gsk") "hello").messages =
      [ { role := "system", content := "You are a helpful assistant." },
        { role := "user", content := "hello" } ] ∧
    generate_response testEnv "hello" (some "gsk") =
      (Except.ok "hi there", [RemoteCall.chat (chatRequestFor (some "gsk") "hello")]) :=
  generate_response_two_messages testEnv "hello" (some "gsk") "hi there" []
    (by decide) rfl

/-- Claim C4: with absent audio, `transcribe_audio` returns the empty
transcript and issues no remote call, whatever the credential. -/
theorem transcribe_audio_absent (env : Env) (api_key : Option String) :
    transcribe_audio env none api_key = (Except.ok "", []) := rfl

/-- Claim C5: on an empty transcript, `generate_response` returns the
fixed placeholder with no remote call; consequently, with a non-empty
credential and absent audio, `process_audio` returns the empty transcript
paired with that placeholder and issues no remote call. -/
theorem generate_response_empty_transcript (env : Env)
    (api_key : Option String) (k : String) (h : k ≠ "") :
    generate_response env "" api_key =
      (Except.ok "No transcription available. Please try speaking again.", []) ∧
    process_audio env none (some k) =
      (Except.ok ("", "No transcription available. Please try speaking again."),
       []) := by
  constructor
  · unfold generate_response
    rw [if_pos rfl]
  · unfold process_audio
    rw [if_neg (by simp [h])]
    simp [transcribe_audio, generate_response]

/-- Witness for C5 at the credential `"abc"`. -/
theorem generate_response_empty_transcript_witness :
    generate_response testEnv "" (some "abc") =
      (Except.ok "No transcription available. Please try speaking again.", []) ∧
    process_audio testEnv none (some "abc") =
      (Except.ok ("", "No transcription available. Please try speaking again."),
       []) :=
  generate_response_empty_transcript testEnv (some "abc") "abc" (by decide)

/-- Claim C6: when a remote call raises, the surrounding function returns
the stage's fixed error label followed by the exception's message, in
place of the expected value. -/
theorem remote_failure_error_label (env : Env) (clip : AudioClip)
    (k : Option String) (t e₁ e₂ : String) (ht : t ≠ "")
    (h₁ : env.transcriptionService (transcriptionRequestFor env k clip) =
      Except.error e₁)
    (h₂ : env.chatService (chatRequestFor k t) = Except.error e₂) :
    transcribe_audio env (some clip) k =
      (Except.ok ("Error in transcription: " ++ e₁),
       [RemoteCall.transcription (transcriptionRequestFor env k clip)]) ∧
    generate_response env t k =
      (Except.ok ("Error in response generation: " ++ e₂),
       [RemoteCall.chat (chatRequestFor k t)]) := by
  constructor
  · unfold transcribe_audio
    simp [h₁]
  · unfold generate_response
    rw [if_neg ht]
    simp [h₂]

/-- Witness for C6 in the external world where both services raise. -/
theorem remote_failure_error_label_witness :
    transcribe_audio failEnv (some ⟨8000, [3]⟩) (some "gsk") =
      (Except.ok ("Error in transcription: " ++ "boom"),
       [RemoteCall.transcription
          (transcriptionRequestFor failEnv (some "gsk") ⟨8000, [3]⟩)]) ∧
    generate_response failEnv "hi" (some "gsk") =
      (Except.ok ("Error in response generation: " ++ "down"),
       [RemoteCall.chat (chatRequestFor (some "gsk") "hi")]) :=
  remote_failure_error_label failEnv ⟨8000, [3]⟩ (some "gsk") "hi" "boom" "down"
    (by decide) rfl rfl

/-- Claim C7: for every input and every behavior of the remote services,
all three functions return normally — no exception propagates out of
them. -/
theorem no_exception_escapes (env : Env) (audio : Option AudioClip)
    (t : String) (api_key : Option String) :
    (∃ r c, transcribe_audio env audio api_key = (Except.ok r, c)) ∧
    (∃ r c, generate_response env t api_key = (Except.ok r, c)) ∧
    (∃ r c, process_audio env audio api_key = (Except.ok r, c)) := by
  refine ⟨transcribe_audio_total env audio api_key,
    generate_response_total env t api_key, ?_⟩
  by_cases hk : api_key = none ∨ api_key = some ""
  · exact ⟨("Please enter your Groq API key.", "API key is required."), [],
      by unfold process_audio; rw [if_pos hk]⟩
  · obtain ⟨t₁, c₁, h₁⟩ := transcribe_audio_total env audio api_key
    obtain ⟨r₂, c₂, h₂⟩ := generate_response_total env t₁ api_key
    exact ⟨(t₁, r₂), c₁ ++ c₂,
      by unfold process_audio; rw [if_neg hk]; simp [h₁, h₂]⟩

/-- Helper: the transcription-stage error string is never the empty
string, so the completion stage's emptiness test does not filter it. -/
theorem transcription_error_ne_nil (e : String) :
    ("Error in transcription: " ++ e) ≠ "" := by
  intro h
  have hl := congrArg String.length h
  rw [String.length_append] at hl
  have h24 : ("Error in transcription: ").length = 24 := rfl
  have h0 : ("" : String).length = 0 := rfl
  rw [h24, h0] at hl
  omega

/-- Helper: on a non-empty transcription, `generate_response` always
issues exactly the one chat call built from that transcription. -/
theorem generate_response_one_call (env : Env) (t : String)
    (k : Option String) (ht : t ≠ "") :
    ∃ r, generate_response env t k =
      (Except.ok r, [RemoteCall.chat (chatRequestFor k t)]) := by
  unfold generate_response
  rw [if_neg ht]
  cases h : env.chatService (chatRequestFor k t) with
  | ok choices =>
    cases choices with
    | nil =>
      exact ⟨"Error in response generation: " ++ "list index out of range",
        by simp [h]⟩
    | cons c rest => exact ⟨c, by simp [h]⟩
  | error e => exact ⟨"Error in response generation: " ++ e, by simp [h]⟩

/-- Claim C8: when the transcription stage fails, its error-labeled text
is treated as a genuine transcript: the orchestrator still calls the
completion stage, and the remote chat call carries the error text as the
user message's content (it is the last message of the request). -/
theorem error_transcript_still_forwarded (env : Env) (clip : AudioClip)
    (k : String) (e : String) (hk : k ≠ "")
    (hfail : env.transcriptionService
        (transcriptionRequestFor env (some k) clip) = Except.error e) :
    ∃ r,
      process_audio env (some clip) (some k) =
        (Except.ok ("Error in transcription: " ++ e, r),
         [RemoteCall.transcription (transcriptionRequestFor env (some k) clip),
          RemoteCall.chat
            (chatRequestFor (some k) ("Error in transcription: " ++ e))]) ∧
      (chatRequestFor (some k) ("Error in transcription: " ++ e)).messages.getLast? =
        some { role := "user", content := "Error in transcription: " ++ e } := by
  obtain ⟨r, hg⟩ := generate_response_one_call env
    ("Error in transcription: " ++ e) (some k) (transcription_error_ne_nil e)
  have htr : transcribe_audio env (some clip) (some k) =
      (Except.ok ("Error in transcription: " ++ e),
       [RemoteCall.transcription (transcriptionRequestFor env (some k) clip)]) := by
    unfold transcribe_audio
    simp [hfail]
  refine ⟨r, ?_, rfl⟩
  unfold process_audio
  rw [if_neg (by simp [hk])]
  simp [htr, hg]

/-- Witness for C8 in the external world where transcription raises. -/
theorem error_transcript_still_forwarded_witness :
    ∃ r,
      process_audio failEnv (some ⟨8000, [1]⟩) (some "gsk") =
        (Except.ok ("Error in transcription: " ++ "boom", r),
         [RemoteCall.transcription
            (transcriptionRequestFor failEnv (some "gsk") ⟨8000, [1]⟩),
          RemoteCall.chat
            (chatRequestFor (some "gsk") ("Error in transcription: " ++ "boom"))]) ∧
      (chatRequestFor (some "gsk")
          ("Error in transcription: " ++ "boom")).messages.getLast? =
        some { role := "user", content := "Error in transcription: " ++ "boom" } :=
  error_transcript_still_forwarded failEnv ⟨8000, [1]⟩ "gsk" "boom" (by decide) rfl

/-- Claim C9: the `np.save` serialization is dead code: `transcribe_audio`
equals its variant with the block removed on every input, its result does
not depend on the `np.save` encoder at all, and the one transcription
request it issues carries the WAV encoding (and nothing else) as the
uploaded bytes. -/
theorem npsave_dead_code (env : Env) (f : List Int → List Nat)
    (audio : Option AudioClip) (api_key : Option String) (clip : AudioClip) :
    transcribe_audio env audio api_key =
      transcribe_audio_without_npsave env audio api_key ∧
    transcribe_audio { env with npSave := f } audio api_key =
      transcribe_audio env audio api_key ∧
    (transcribe_audio env (some clip) api_key).2 =
      [RemoteCall.transcription (transcriptionRequestFor env api_key clip)] := by
  refine ⟨?_, ?_, ?_⟩
  · cases audio with
    | none => rfl
    | some c => rfl
  · cases audio with
    | none => rfl
    | some c => rfl
  · unfold transcribe_audio
    cases h : env.transcriptionService (transcriptionRequestFor env api_key clip) <;>
      simp [h]

/-- Claim C10: the absent-audio test checks only for `None`: for every
present clip — an empty sample buffer included — the short-circuit is not
taken, the buffer is WAV-encoded at the clip's rate (the tuple's first
element), and the remote transcription call is attempted. -/
theorem transcribe_audio_present_always_calls (env : Env) (clip : AudioClip)
    (api_key : Option String) :
    (transcriptionRequestFor env api_key clip).fileBytes =
      env.wavEncode clip.rate clip.data ∧
    (transcribe_audio env (some clip) api_key).2 =
      [RemoteCall.transcription (transcriptionRequestFor env api_key clip)] ∧
    (transcribe_audio env (some { rate := clip.rate, data := [] })
        api_key).2 ≠ [] := by
  refine ⟨rfl, ?_, ?_⟩
  · unfold transcribe_audio
    cases h : env.transcriptionService (transcriptionRequestFor env api_key clip) <;>
      simp [h]
  · unfold transcribe_audio
    cases h : env.transcriptionService
        (transcriptionRequestFor env api_key { rate := clip.rate, data := [] }) <;>
      simp [h]
